import Mathlib

/-!
Shallow embedding of `src/market/MarketLayer.js` from market-csgo-manager:
the purchase loop (`buyCheapest` / `_tryToBuy`), offer discovery
(`getItemOffers`), and the history reconciliation (`getBoughtItems` /
`getItemState`), together with the provider message vocabulary
(`EMarketMessage`).  Machine numbers are modelled as `Int` (prices are
integer minor currency units throughout the code); `Number.MAX_VALUE`
sentinels are modelled as the absent case of an `Option`, since no integer
price in the program can exceed `Number.MAX_VALUE`.
-/

namespace MarketCsgo

/-- Error kinds used by `MarketLayer.js` (`EErrorType`; the enum file is not
under `src/`, but every constructor below is named at its use site in
`MarketLayer.js`). -/
inductive EErrorType where
  | AttemptsFailed
  | NeedMoney
  | BadOfferPrice
  | NeedToTake
  | InvalidToken
  | InventoryClosed
  | UnableOfflineTrade
  | VacGameBan
  | BotCanceledTrades
  | CanceledTrades
  | RequestFailed
  | NotFound
  | TooHighPrices
  | HistoryFailed
  | UnknownStage
  deriving DecidableEq, Repr

/-- Error sources (`EErrorSource`): who has to act on the failure. -/
inductive EErrorSource where
  | Market
  | Owner
  | User
  deriving DecidableEq, Repr

namespace EMarketMessage

/-! Raw provider message strings, transcribed from the `EMarketMessage`
enum object. -/

def Ok : String := "ok"

def TooEarlyToPong : String := "too early for pong"

def CheckTokenOrMobile : String := "token_check_or_mobile_authenticator"

def RequestErrorNoItems : String := "Ошибка создания заявки: У вас нет вещей для передачи"

def RequestErrorWrongBotId : String := "Ошибка создания заявки: Неправильный номер бота"

def RequestErrorItemListFail : String := "Ошибка создания заявки: Не удалось получить список предметов"

def RequestUnexpectedError : String := "Ошибка создания заявки: Exception"

def NeedMoney : String := "Недостаточно средств на счету"

def NeedToTake : String := "Вы не можете покупать, пока у вас есть доступные для вывода предметы.\nВыведите все предметы на странице \"Мои вещи\""

def BadOfferPrice : String := "Покупка данного предмета по такой цене невозможна. Обратитесь в техподдержку"

def RequestErrorNoList : String := "Ошибка создания заявки: Не удалось получить список предметов"

def BuyOfferExpired : String := "К сожалению, предложение устарело. Обновите страницу"

def SomebodyBuying : String := "Кто-то уже покупает этот предмет. Попробуйте ещё"

def ServerError7 : String := "Ошибка сервера 7"

def SteamOrBotProblems : String := "Возможны проблемы со стим или ботом, попробуйте позже."

def BotIsBanned : String := "Бот забанен, скоро исправим."

def VacGameBan : String := "Error: reason VACBan or Game ban."

def InvalidTradeLink : String := "Invalid trade link"

def SteamInventoryPrivate : String := "First you must open your inventory in your Steam profile settings."

def OfflineTradeProblem : String := "Error verifying link. Our bot cannot take or transfer your items. Please check the function of offline trades on your account."

def BadTokenInvClosed : String := "bad_token_inv_closed"

def CanceledTrades : String := "Передача предмета на этого пользователя не возможна, из-за не принятия большого кол-ва обменов."

def BuyCanceledTrades : String := "Вы не можете покупать, так как не приняли слишком много предложений обмена"

def ItemReadyToTake : String := "Купленный предмет готов к получению, заберите его на странице \"Мои вещи\""

def SupportAnswer : String := "Получен новый ответ от техподдержки"

end EMarketMessage

/-- Every string value of the frozen `EMarketMessage` enum object: the
"known message table" of the provider vocabulary. -/
def knownMessages : List String :=
  [EMarketMessage.Ok, EMarketMessage.TooEarlyToPong,
   EMarketMessage.CheckTokenOrMobile, EMarketMessage.RequestErrorNoItems,
   EMarketMessage.RequestErrorWrongBotId, EMarketMessage.RequestErrorItemListFail,
   EMarketMessage.RequestUnexpectedError, EMarketMessage.NeedMoney,
   EMarketMessage.NeedToTake, EMarketMessage.BadOfferPrice,
   EMarketMessage.RequestErrorNoList, EMarketMessage.BuyOfferExpired,
   EMarketMessage.SomebodyBuying, EMarketMessage.ServerError7,
   EMarketMessage.SteamOrBotProblems, EMarketMessage.BotIsBanned,
   EMarketMessage.VacGameBan, EMarketMessage.InvalidTradeLink,
   EMarketMessage.SteamInventoryPrivate, EMarketMessage.OfflineTradeProblem,
   EMarketMessage.BadTokenInvClosed, EMarketMessage.CanceledTrades,
   EMarketMessage.BuyCanceledTrades, EMarketMessage.ItemReadyToTake,
   EMarketMessage.SupportAnswer]

/-- Configuration fields of `CMarketConfig` consumed by the embedded code. -/
structure CMarketConfig where
  hackExpiredOffers : Bool
  applyDiscounts : Bool
  preparePrice : Int → Int
  handleTimezone : Bool
  tzOffsetMinutes : Int

/-- One purchasable offer as produced by `getItemOffers` and consumed by
`buyCheapest`.  `minPrice` is the `min_price` property, absent until the
expired-offer price adjustment in `buyCheapest` writes it. -/
structure Offer where
  hashName : String
  instanceId : String
  classId : String
  price : Int
  offers : Int
  minPrice : Option Int := none
  deriving DecidableEq, Repr

/-- A `MiddlewareError` value: message, `type`, optional `source`, the
context payloads the code attaches (`needMoney`, `lowestPrice`,
`marketId`), the transport `statusCode` (never set by `MarketLayer.js`
itself), and the `instance` attached by `buyCheapest` when a status code is
present. -/
structure MiddlewareError where
  message : String
  type : EErrorType
  source : Option EErrorSource := none
  needMoney : Option Int := none
  lowestPrice : Option Int := none
  marketId : Option Int := none
  statusCode : Option Nat := none
  errInstance : Option Offer := none
  deriving DecidableEq, Repr

/-- The value resolved by a successful `_tryToBuy`. -/
structure PurchaseResult where
  uiId : Nat
  classId : String
  instanceId : String
  price : Int
  offerPrice : Option Int
  deriving DecidableEq, Repr

/-- Outcome of the remote `api.buyV2CreateFor` call: either the promise
resolves with a `success` flag and an id, or it rejects; a rejection may or
may not carry a structured `response.body.error` object (whose `.error`
field is the raw message string) and a transport status code. -/
inductive BuyCallOutcome where
  | resolved (success : Bool) (id : Nat)
  | rejected (errBody : Option String) (statusCode : Option Nat)
  deriving DecidableEq, Repr

/-- Result of one `_tryToBuy` call: resolves with a purchase result,
resolves with `null` (silent retry), rejects with a `MiddlewareError`, or
rejects with a plain JavaScript error (the `TypeError` raised when the
catch handler dereferences `error.response.body.error` on an error that
has no structured response). -/
inductive TryResult where
  | ok (r : PurchaseResult)
  | retryNull
  | err (e : MiddlewareError)
  | jsError (msg : String)
  deriving DecidableEq, Repr

/-- JavaScript `a || b` on a possibly-absent number: an absent or zero
(falsy) `a` yields `b`. -/
def jsOr (a : Option Int) (b : Int) : Int :=
  match a with
  | some v => if v = 0 then b else v
  | none => b

/-- The `_applyDiscount` method: `Math.round(price * (1 - buyDiscount))`
when discounts are enabled, the price unchanged otherwise.  JavaScript
`Math.round` is rounding half towards positive infinity, which is exactly
Mathlib `round` on `ℚ`. -/
def applyDiscount (cfg : CMarketConfig) (buyDiscount : ℚ) (price : Int) : Int :=
  if cfg.applyDiscounts then round ((price : ℚ) * (1 - buyDiscount)) else price

/-- The `switch (message)` of `_tryToBuy`'s catch handler.  The reverse
lookup `EMarketMessage[EMarketMessage.hash(response.error)]` maps a raw
string to itself when it is a value of the enum and to `undefined`
otherwise; `undefined` then matches the `case EMarketMessage.FailedToFindItem`
label (that property does not exist on the enum, so the label itself is
`undefined`) and returns `null`, the same result as the `default` branch.
Classification therefore depends only on string equality with the explicit
case labels, in source order. -/
def classifyMessage (raw : String) (uprice : Int) : TryResult :=
  if raw = EMarketMessage.BadOfferPrice then
    .err { message := "Unable to buy item for current price",
           type := .BadOfferPrice, source := some .Market }
  else if raw = EMarketMessage.BuyOfferExpired ∨ raw = EMarketMessage.SomebodyBuying ∨
      raw = EMarketMessage.RequestErrorNoList ∨ raw = EMarketMessage.SteamOrBotProblems ∨
      raw = EMarketMessage.BotIsBanned ∨ raw = EMarketMessage.ServerError7 then
    .retryNull
  else if raw = EMarketMessage.NeedToTake then
    .err { message := "Need to withdraw items", type := .NeedToTake, source := some .Owner }
  else if raw = EMarketMessage.NeedMoney then
    .err { message := "Need to top up bots balance", type := .NeedMoney,
           source := some .Owner, needMoney := some uprice }
  else if raw = EMarketMessage.InvalidTradeLink then
    .err { message := "Your trade link is invalid", type := .InvalidToken, source := some .User }
  else if raw = EMarketMessage.SteamInventoryPrivate then
    .err { message := "Your Steam inventory is closed", type := .InventoryClosed,
           source := some .User }
  else if raw = EMarketMessage.OfflineTradeProblem then
    .err { message := "Trade link failed, check your ability to trade",
           type := .UnableOfflineTrade, source := some .User }
  else if raw = EMarketMessage.VacGameBan then
    .err { message := "You have VAC or game ban", type := .VacGameBan, source := some .User }
  else if raw = EMarketMessage.BuyCanceledTrades then
    .err { message := "Send failed due to many declined trades",
           type := .BotCanceledTrades, source := some .User }
  else if raw = EMarketMessage.CanceledTrades then
    .err { message := "You have declined too many trades", type := .CanceledTrades,
           source := some .User }
  else
    .retryNull

/-- The `_tryToBuy` method for a given outcome of the remote call.  A
resolved response with `success` not true raises `Error` at line 140, which
is caught by the same `.catch` whose first statement dereferences
`error.response.body.error` — on that error, and on any rejection without a
structured body, this raises `TypeError`. -/
def tryToBuy (cfg : CMarketConfig) (buyDiscount : ℚ) (inst : Offer)
    (outcome : BuyCallOutcome) : TryResult :=
  let uprice := inst.price
  match outcome with
  | .resolved true id =>
      .ok { uiId := id, classId := inst.classId, instanceId := inst.instanceId,
            price := applyDiscount cfg buyDiscount (jsOr inst.minPrice uprice),
            offerPrice := inst.minPrice }
  | .resolved false _ => .jsError "TypeError"
  | .rejected none _ => .jsError "TypeError"
  | .rejected (some raw) _ => classifyMessage raw uprice

/-- The `_getAccountBalance` method: the wallet value, or `Number.MAX_VALUE`
(modelled as `none` = unbounded) when no balance has been set.  The guard
`balance !== false && instance.price > balance` in `buyCheapest` can only
trigger on a finite wallet, since no integer price exceeds
`Number.MAX_VALUE`. -/
def needMoneyGuard (wallet : Option Int) (price : Int) : Bool :=
  match wallet with
  | none => false
  | some b => decide (b < price)

/-- The expired-offer price adjustment at the top of each `buyAttempt`
iteration: when `config.hackExpiredOffers` is set and another candidate
remains, record the original listed price in `min_price` and raise the
attempt price to `max(price, nextInstance.price - 1)`. -/
def adjustInstance (cfg : CMarketConfig) (inst0 : Offer) (rest : List Offer) : Offer :=
  match cfg.hackExpiredOffers, rest with
  | true, nextInstance :: _ =>
      { inst0 with minPrice := some inst0.price,
                   price := max inst0.price (nextInstance.price - 1) }
  | _, _ => inst0

/-- Result of one `buyCheapest` run: a purchase result, a propagated error
(a `MiddlewareError` for every error the embedded code constructs), or a
propagated plain JavaScript error. -/
inductive RunResult where
  | ok (r : PurchaseResult)
  | fatalErr (e : MiddlewareError)
  | jsError (msg : String)
  deriving DecidableEq, Repr

/-- The `AttemptsFailed` error thrown on an empty queue. -/
def attemptsFailedError : MiddlewareError :=
  { message := "All buy attempts failed", type := .AttemptsFailed, source := some .Market }

/-- One recursive `buyAttempt` closure invocation inside `buyCheapest`.
`resp` is the oracle giving the outcome of the `k`-th remote purchase
call; `badItemPrice` is the closure-captured one-shot flag. -/
def buyAttempt (cfg : CMarketConfig) (wallet : Option Int) (buyDiscount : ℚ)
    (offers : List Offer) (resp : Nat → BuyCallOutcome) (k : Nat)
    (badItemPrice : Bool) : RunResult :=
  match offers with
  | [] => .fatalErr attemptsFailedError
  | inst0 :: rest =>
    let inst := adjustInstance cfg inst0 rest
    if needMoneyGuard wallet inst.price then
      .fatalErr { message := "Need to top up bots balance", type := .NeedMoney,
                  source := some .Owner, needMoney := some inst.price }
    else
      match tryToBuy cfg buyDiscount inst (resp k) with
      | .ok d => .ok d
      | .retryNull => buyAttempt cfg wallet buyDiscount rest resp (k + 1) badItemPrice
      | .err e =>
          if e.type = .BadOfferPrice ∧ badItemPrice = false then
            buyAttempt cfg wallet buyDiscount rest resp (k + 1) true
          else
            .fatalErr (if e.statusCode.isSome then { e with errInstance := some inst } else e)
      | .jsError m => .jsError m

/-- The `buyCheapest` method: run `buyAttempt` with the `badItemPrice`
flag initially unset. -/
def buyCheapest (cfg : CMarketConfig) (wallet : Option Int) (buyDiscount : ℚ)
    (offers : List Offer) (resp : Nat → BuyCallOutcome) : RunResult :=
  buyAttempt cfg wallet buyDiscount offers resp 0 false

/-- One raw entry of the `searchV2ItemByHash` response, after the
`MarketApi.getItemHash` / `MarketApi.getItemIds` accessors: hash name, ids,
price, and the listing count fields `offers` and `count` combined by the
code as `item.offers || item.count`. -/
structure RawSearchItem where
  hashName : String
  instanceId : String
  classId : String
  price : Int
  offersField : Option Int
  count : Int
  deriving DecidableEq, Repr

/-- The `searchV2ItemByHash` response: a success flag and a possibly absent
candidate list. -/
structure SearchResponse where
  success : Bool
  data : Option (List RawSearchItem)
  deriving DecidableEq, Repr

/-- The `extractOffers` helper of `getItemOffers`. -/
def extractOffers (items : List RawSearchItem) : List Offer :=
  items.map fun item =>
    { hashName := item.hashName, instanceId := item.instanceId,
      classId := item.classId, price := item.price,
      offers := jsOr item.offersField item.count }

/-- The `allowedPrice` computation of `getItemOffers`:
`maxPrice ? config.preparePrice(maxPrice) : Number.MAX_VALUE`, with the
unbounded `Number.MAX_VALUE` modelled as `none` (a falsy — absent or
zero — `maxPrice` disables the ceiling). -/
def allowedPrice (cfg : CMarketConfig) (maxPrice : Option Int) : Option Int :=
  match maxPrice with
  | some m => if m = 0 then none else some (cfg.preparePrice m)
  | none => none

/-- The comparison `item.price <= allowedPrice` under the modelling of
`Number.MAX_VALUE` as an unbounded ceiling. -/
def priceAdmitted (ap : Option Int) (p : Int) : Bool :=
  match ap with
  | none => true
  | some a => decide (p ≤ a)

/-- The `prepareOffers` helper of `getItemOffers`: drop offers that are too
expensive or have no listings, drop offers whose hash name differs from the
requested one, and sort ascending by price.  JavaScript `Array.sort` with
the comparator `a.price - b.price` is a stable ascending sort; a stable
sort's output is unique, so the stable `insertionSort` computes exactly
it. -/
def prepareOffers (mhn : String) (ap : Option Int) (items : List Offer) : List Offer :=
  ((items.filter fun item => priceAdmitted ap item.price && decide (0 < item.offers)).filter
      fun item => item.hashName == mhn).insertionSort
    fun a b => a.price ≤ b.price

/-- JavaScript `Math.min` applied to a list of numbers (only reached on a
non-empty list in `getItemOffers`). -/
def jsMathMin : List Int → Int
  | [] => 0
  | x :: xs => xs.foldl min x

/-- The `getItemOffers` method, as a function of the remote search
response. -/
def getItemOffers (cfg : CMarketConfig) (mhn : String) (maxPrice : Option Int)
    (itemVariants : SearchResponse) : Except MiddlewareError (List Offer) :=
  if !itemVariants.success then
    .error { message := "Can't get item variants on TM", type := .RequestFailed,
             source := some .Market }
  else
    match itemVariants.data with
    | none =>
        .error { message := "Got empty list of item variants on TM", type := .NotFound,
                 source := some .Market }
    | some ds =>
        if ds = [] then
          .error { message := "Got empty list of item variants on TM", type := .NotFound,
                   source := some .Market }
        else
          let rawVariants := extractOffers ds
          let preparedVariants := prepareOffers mhn (allowedPrice cfg maxPrice) rawVariants
          if preparedVariants = [] then
            .error { message := "There are variants, but all of them are too expensive or invalid",
                     type := .TooHighPrices, source := some .Owner,
                     lowestPrice := some (jsMathMin (rawVariants.map fun item => item.price)) }
          else
            .ok preparedVariants

/-- Modelled from the spec: the event-type enum
`enums/system/EMarketEventType` is not under `src/`; `MarketLayer.js` only
compares an event's `event` field against its `BuyV2` member, so the enum
is modelled as that member plus an anonymous other member. -/
inductive EMarketEventType where
  | BuyV2
  | OtherEvent
  deriving DecidableEq, Repr

/-- One transaction-history event as consumed by `getBoughtItems` and
`getItemState`. -/
structure HistoryEvent where
  item_id : Int
  stage : Int
  event : EMarketEventType
  deriving DecidableEq, Repr

/-- The `accountV2GetHistory` response: a success flag and an event list. -/
structure HistoryResponse where
  success : Bool
  data : List HistoryEvent
  deriving DecidableEq, Repr

/-- The timezone alignment at the top of `getBoughtItems`: when
`config.handleTimezone` is set, shift the operation date by the current
timezone offset (minutes) towards UTC+0. -/
def alignDate (cfg : CMarketConfig) (operationDate : Int) : Int :=
  if cfg.handleTimezone then operationDate + cfg.tzOffsetMinutes * 60 * 1000 else operationDate

/-- The `getBoughtItems` method for a supplied operation date (milliseconds
since epoch), as a function of the remote history oracle `queryHistory`
mapping a window `[start, end]` to the response. -/
def getBoughtItems (cfg : CMarketConfig) (queryHistory : Int → Int → HistoryResponse)
    (operationDate : Int) (timeMargin : Int) : Except MiddlewareError (List HistoryEvent) :=
  let d := alignDate cfg operationDate
  let history := queryHistory (d - timeMargin) (d + timeMargin)
  if history.success then
    let buyEvents := history.data.filter fun event => event.event == EMarketEventType.BuyV2
    if buyEvents = [] then
      .error { message := "Buy events not found", type := .NotFound }
    else
      .ok buyEvents
  else
    .error { message := "Failed to get history", type := .HistoryFailed }

/-- The `extractItem` helper of `getItemState`: the first history event
whose `item_id` matches the requested market id. -/
def extractItem (marketId : Int) (history : List HistoryEvent) : Option HistoryEvent :=
  history.find? fun event => event.item_id == marketId

/-- The inner `getItem` helper of `getItemState`: fetch bought items within
the margin and require the requested item's event to be present. -/
def getItem (cfg : CMarketConfig) (queryHistory : Int → Int → HistoryResponse)
    (marketId : Int) (operationDate : Int) (margin : Int) :
    Except MiddlewareError HistoryEvent :=
  match getBoughtItems cfg queryHistory operationDate margin with
  | .error e => .error e
  | .ok history =>
      match extractItem marketId history with
      | none => .error { message := "Event for marketItem not found", type := .NotFound }
      | some buyEvent => .ok buyEvent

/-- The `makeRequests` helper of `getItemState`: try the 45 second margin;
on `NotFound` (and only then) retry once with the 5 minute margin. -/
def makeRequests (cfg : CMarketConfig) (queryHistory : Int → Int → HistoryResponse)
    (marketId : Int) (operationDate : Int) : Except MiddlewareError HistoryEvent :=
  match getItem cfg queryHistory marketId operationDate (45 * 1000) with
  | .ok buyEvent => .ok buyEvent
  | .error e =>
      if e.type = .NotFound then
        getItem cfg queryHistory marketId operationDate (5 * 60 * 1000)
      else
        .error e

/-- The `getItemState` method.  `knownStages` stands for the
`EMarketEventStage` enum (modelled from the spec: the enum file is not
under `src/`, and the code only tests membership via
`EMarketEventStage.has(stage)`). -/
def getItemState (cfg : CMarketConfig) (queryHistory : Int → Int → HistoryResponse)
    (knownStages : List Int) (marketId : Int) (operationDate : Int) :
    Except MiddlewareError Int :=
  match makeRequests cfg queryHistory marketId operationDate with
  | .error e => .error { e with marketId := some marketId }
  | .ok buyEvent =>
      if knownStages.contains buyEvent.stage then
        .ok buyEvent.stage
      else
        .error { message := "Unknown item operation stage", type := .UnknownStage }

/-! Concrete fixtures used by witnesses and counterexamples. -/

/-- Configuration with the expired-offer price adjustment enabled and
discounts disabled. -/
def cfgAdjust : CMarketConfig :=
  { hackExpiredOffers := true, applyDiscounts := false, preparePrice := fun p => p,
    handleTimezone := false, tzOffsetMinutes := 0 }

/-- Configuration with both the price adjustment and discounts disabled. -/
def cfgPlain : CMarketConfig :=
  { hackExpiredOffers := false, applyDiscounts := false, preparePrice := fun p => p,
    handleTimezone := false, tzOffsetMinutes := 0 }

/-- An offer fixture at a given price. -/
def offerAt (p : Int) : Offer :=
  { hashName := "AK-47 | Redline (Field-Tested)", instanceId := "188530139",
    classId := "310776560", price := p, offers := 1 }

/-- Response oracle fixture: every remote purchase call resolves
successfully with id 0. -/
def respOkAlways : Nat → BuyCallOutcome := fun _ => .resolved true 0

/-- Response oracle fixture: every remote purchase call is rejected with the
`BadOfferPrice` provider message. -/
def respBadPrice : Nat → BuyCallOutcome :=
  fun _ => .rejected (some EMarketMessage.BadOfferPrice) none

/-- Response oracle fixture: every remote purchase call is rejected with a
message outside the known vocabulary. -/
def respUnknown : Nat → BuyCallOutcome :=
  fun _ => .rejected (some "no such message") none

/-- The `MiddlewareError` thrown for a `BadOfferPrice` provider message. -/
def badOfferPriceError : MiddlewareError :=
  { message := "Unable to buy item for current price", type := .BadOfferPrice,
    source := some .Market }

/-! Helper lemmas about the embedded definitions. -/

/-- The price adjustment never lowers the attempt price below the listed
price. -/
theorem adjustInstance_price_ge (cfg : CMarketConfig) (inst0 : Offer) (rest : List Offer) :
    inst0.price ≤ (adjustInstance cfg inst0 rest).price := by
  unfold adjustInstance
  cases cfg.hackExpiredOffers <;> cases rest <;> simp [le_max_left]

/-- The balance guard stays off for the adjusted price as long as it is off
for the listed price of the candidate and of every later candidate. -/
theorem needMoneyGuard_adjust (cfg : CMarketConfig) (wallet : Option Int) (o : Offer)
    (rest : List Offer) (h1 : needMoneyGuard wallet o.price = false)
    (h2 : ∀ n ∈ rest, needMoneyGuard wallet n.price = false) :
    needMoneyGuard wallet (adjustInstance cfg o rest).price = false := by
  cases wallet with
  | none => rfl
  | some B =>
      simp only [needMoneyGuard, decide_eq_false_iff_not, not_lt] at h1 h2 ⊢
      unfold adjustInstance
      cases cfg.hackExpiredOffers with
      | false => exact h1
      | true =>
          cases rest with
          | nil => exact h1
          | cons n r =>
              have hn : n.price ≤ B := h2 n (List.mem_cons_self n r)
              simp only [max_le_iff]
              exact ⟨h1, by omega⟩

/-! Claim theorems. -/

/-- C2: with price-floor adjustment enabled and a further candidate in the
queue, the popped candidate's attempt price is
`max(candidate.price, nextCandidate.price - 1)` while the original listed
price is preserved in `min_price`; with no further candidate the candidate
is unchanged.  `adjustInstance` is exactly the adjustment step executed by
`buyAttempt` on the popped candidate before the balance guard and the
purchase call. -/
theorem C2_price_floor_adjustment (cfg : CMarketConfig) (h : cfg.hackExpiredOffers = true)
    (inst0 nextInstance : Offer) (rest : List Offer) :
    (adjustInstance cfg inst0 (nextInstance :: rest)).price =
      max inst0.price (nextInstance.price - 1) ∧
    (adjustInstance cfg inst0 (nextInstance :: rest)).minPrice = some inst0.price ∧
    adjustInstance cfg inst0 [] = inst0 := by
  unfold adjustInstance
  rw [h]
  exact ⟨rfl, rfl, rfl⟩

/-- Witness for C2 at the spec's concrete inputs: candidates `[100, 150]`
give attempt price `149`, candidates `[100, 105]` give `104`, and a single
candidate is unchanged. -/
theorem C2_witness :
    (adjustInstance cfgAdjust (offerAt 100) [offerAt 150]).price = 149 ∧
    (adjustInstance cfgAdjust (offerAt 100) [offerAt 105]).price = 104 ∧
    (adjustInstance cfgAdjust (offerAt 100) [offerAt 150]).minPrice = some 100 ∧
    adjustInstance cfgAdjust (offerAt 100) [] = offerAt 100 := by
  have h1 := C2_price_floor_adjustment cfgAdjust rfl (offerAt 100) (offerAt 150) []
  have h2 := C2_price_floor_adjustment cfgAdjust rfl (offerAt 100) (offerAt 105) []
  exact ⟨h1.1.trans (by decide), h2.1.trans (by decide), h1.2.1, h1.2.2⟩

/-- C3 counterexample: with price-floor adjustment enabled, known balance
`99` and queue `[100, 150]`, the run fails `NeedMoney` with context
`needMoney = 149` — the adjusted attempt price — and not the cheapest
candidate's listed price `100`, refuting `needMoney = candidate.price` as
stated. -/
theorem C3_counterexample :
    buyCheapest cfgAdjust (some 99) 0 [offerAt 100, offerAt 150] respOkAlways =
      .fatalErr { message := "Need to top up bots balance", type := .NeedMoney,
                  source := some .Owner, needMoney := some 149 } ∧
    some (149 : Int) ≠ some (offerAt 100).price := by
  exact ⟨by decide, by decide⟩

/-- C3 (amended): for a known balance `B` and a non-empty queue whose
cheapest candidate costs more than `B`, the run fails fatally with
`NeedMoney` (source Owner) whose `needMoney` context is the candidate's
attempt price — the price after the price-floor adjustment step, which
equals the candidate's listed price whenever the adjustment does not
apply.  The right-hand side does not mention the response oracle, so the
failure is independent of any provider response: no remote purchase call is
issued, and no later candidate is tried. -/
theorem C3_needMoney_fatal (cfg : CMarketConfig) (B : Int) (buyDiscount : ℚ)
    (inst0 : Offer) (rest : List Offer) (resp : Nat → BuyCallOutcome)
    (h : B < inst0.price) :
    buyCheapest cfg (some B) buyDiscount (inst0 :: rest) resp =
      .fatalErr { message := "Need to top up bots balance", type := .NeedMoney,
                  source := some .Owner,
                  needMoney := some (adjustInstance cfg inst0 rest).price } := by
  have hp : needMoneyGuard (some B) (adjustInstance cfg inst0 rest).price = true := by
    simp only [needMoneyGuard, decide_eq_true_iff]
    exact lt_of_lt_of_le h (adjustInstance_price_ge cfg inst0 rest)
  unfold buyCheapest buyAttempt
  simp only [hp, if_true]

/-- Witness for C3 (amended): balance `50`, single candidate priced `100`,
adjustment disabled. -/
theorem C3_witness :
    buyCheapest cfgPlain (some 50) 0 [offerAt 100] respOkAlways =
      .fatalErr { message := "Need to top up bots balance", type := .NeedMoney,
                  source := some .Owner,
                  needMoney := some (adjustInstance cfgPlain (offerAt 100) []).price } :=
  C3_needMoney_fatal cfgPlain 50 0 (offerAt 100) [] respOkAlways (by decide)

/-- C1: the `badItemPrice` flag makes `BadOfferPrice` one-shot.  When the
current attempt's purchase call classifies to a `BadOfferPrice`
`MiddlewareError`: with the flag still unset (no prior `BadOfferPrice` in
this `buyCheapest` invocation, as at entry) the loop continues with the
remaining queue and the flag set; with the flag already set (a prior
`BadOfferPrice` occurred) the `BadOfferPrice` error propagates to the
caller as fatal. -/
theorem C1_badOfferPrice_one_shot (cfg : CMarketConfig) (wallet : Option Int)
    (buyDiscount : ℚ) (inst0 : Offer) (rest : List Offer) (resp : Nat → BuyCallOutcome)
    (k : Nat) (e : MiddlewareError)
    (hbal : needMoneyGuard wallet (adjustInstance cfg inst0 rest).price = false)
    (hresp : tryToBuy cfg buyDiscount (adjustInstance cfg inst0 rest) (resp k) = .err e)
    (htype : e.type = .BadOfferPrice) (hsc : e.statusCode = none) :
    buyAttempt cfg wallet buyDiscount (inst0 :: rest) resp k false =
      buyAttempt cfg wallet buyDiscount rest resp (k + 1) true ∧
    buyAttempt cfg wallet buyDiscount (inst0 :: rest) resp k true = .fatalErr e := by
  constructor <;>
    · conv_lhs => rw [buyAttempt]
      simp [hbal, hresp, htype, hsc]

/-- Witness for C1: a queue of one candidate whose purchase is rejected with
the `BadOfferPrice` provider message. -/
theorem C1_witness :
    buyAttempt cfgPlain none 0 [offerAt 100] respBadPrice 0 false =
      buyAttempt cfgPlain none 0 [] respBadPrice 1 true ∧
    buyAttempt cfgPlain none 0 [offerAt 100] respBadPrice 0 true =
      .fatalErr badOfferPriceError :=
  C1_badOfferPrice_one_shot cfgPlain none 0 (offerAt 100) [] respBadPrice 0
    badOfferPriceError rfl (by decide) rfl rfl

/-- A raw message outside the known vocabulary falls through every case
label of the classification switch and yields `null`. -/
theorem classifyMessage_unknown (raw : String) (hraw : raw ∉ knownMessages) (uprice : Int) :
    classifyMessage raw uprice = .retryNull := by
  simp only [knownMessages, List.mem_cons, List.not_mem_nil, or_false, not_or] at hraw
  obtain ⟨-, -, -, -, -, -, -, h8, h9, h10, h11, h12, h13, h14, h15, h16, h17, h18, h19,
    h20, -, h22, h23, -, -⟩ := hraw
  simp [classifyMessage, h8, h9, h10, h11, h12, h13, h14, h15, h16, h17, h18, h19, h20,
    h22, h23]

/-- C4: a provider rejection whose raw message is not in the known message
table classifies to the silent-retry outcome (`_tryToBuy` resolves `null`)
for every candidate, and the purchase loop then just continues with the
remaining queue — it never produces a fatal `MiddlewareError`. -/
theorem C4_unknown_message_silent_retry (cfg : CMarketConfig) (wallet : Option Int)
    (buyDiscount : ℚ) (raw : String) (sc : Option Nat) (inst0 : Offer)
    (rest : List Offer) (resp : Nat → BuyCallOutcome) (k : Nat) (b : Bool)
    (hraw : raw ∉ knownMessages)
    (hk : resp k = .rejected (some raw) sc)
    (hbal : needMoneyGuard wallet (adjustInstance cfg inst0 rest).price = false) :
    (∀ inst : Offer, tryToBuy cfg buyDiscount inst (.rejected (some raw) sc) = .retryNull) ∧
    buyAttempt cfg wallet buyDiscount (inst0 :: rest) resp k b =
      buyAttempt cfg wallet buyDiscount rest resp (k + 1) b := by
  have htry : ∀ inst : Offer,
      tryToBuy cfg buyDiscount inst (.rejected (some raw) sc) = .retryNull :=
    fun inst => classifyMessage_unknown raw hraw inst.price
  refine ⟨htry, ?_⟩
  conv_lhs => rw [buyAttempt]
  simp [hbal, hk, htry]

/-- Witness for C4 at the raw message "no such message". -/
theorem C4_witness :
    (∀ inst : Offer,
      tryToBuy cfgPlain 0 inst (.rejected (some "no such message") none) = .retryNull) ∧
    buyAttempt cfgPlain none 0 [offerAt 100] respUnknown 0 false =
      buyAttempt cfgPlain none 0 [] respUnknown 1 false :=
  C4_unknown_message_silent_retry cfgPlain none 0 "no such message" none (offerAt 100) []
    respUnknown 0 false (by decide) rfl rfl

/-- Exhausting the queue under all-silent-retry responses, for any attempt
counter and any state of the `badItemPrice` flag. -/
theorem buyAttempt_all_retry (cfg : CMarketConfig) (wallet : Option Int)
    (buyDiscount : ℚ) (offers : List Offer) (resp : Nat → BuyCallOutcome)
    (hbal : ∀ o ∈ offers, needMoneyGuard wallet o.price = false)
    (hresp : ∀ (n : Nat) (inst : Offer), tryToBuy cfg buyDiscount inst (resp n) = .retryNull) :
    ∀ (k : Nat) (b : Bool),
      buyAttempt cfg wallet buyDiscount offers resp k b = .fatalErr attemptsFailedError := by
  induction offers with
  | nil => intro k b; rfl
  | cons o rest ih =>
      intro k b
      have hguard : needMoneyGuard wallet (adjustInstance cfg o rest).price = false :=
        needMoneyGuard_adjust cfg wallet o rest (hbal o (List.mem_cons_self o rest))
          fun n hn => hbal n (List.mem_cons_of_mem o hn)
      conv_lhs => rw [buyAttempt]
      simp only [hguard, Bool.false_eq_true, if_false, hresp]
      exact ih (fun o ho => hbal o (List.mem_cons_of_mem _ ho)) (k + 1) b

/-- C5: when every issued purchase attempt classifies to silent retry and
the balance guard never fires, `buyCheapest` consumes the whole queue and
fails with `AttemptsFailed` (source Market); in particular it never returns
a success value. -/
theorem C5_exhaustion_attempts_failed (cfg : CMarketConfig) (wallet : Option Int)
    (buyDiscount : ℚ) (offers : List Offer) (resp : Nat → BuyCallOutcome)
    (hbal : ∀ o ∈ offers, needMoneyGuard wallet o.price = false)
    (hresp : ∀ (n : Nat) (inst : Offer), tryToBuy cfg buyDiscount inst (resp n) = .retryNull) :
    buyCheapest cfg wallet buyDiscount offers resp = .fatalErr attemptsFailedError :=
  buyAttempt_all_retry cfg wallet buyDiscount offers resp hbal hresp 0 false

/-- Witness for C5: two candidates, both rejected with an unknown message. -/
theorem C5_witness :
    buyCheapest cfgPlain none 0 [offerAt 100, offerAt 120] respUnknown =
      .fatalErr attemptsFailedError :=
  C5_exhaustion_attempts_failed cfgPlain none 0 [offerAt 100, offerAt 120] respUnknown
    (fun _ _ => rfl)
    (fun _ inst => classifyMessage_unknown "no such message" (by decide) inst.price)

/-- Every offer surviving `prepareOffers` passed the price ceiling, has a
positive listing count, and matches the requested hash name. -/
theorem mem_prepareOffers (mhn : String) (ap : Option Int) (items : List Offer)
    (o : Offer) (ho : o ∈ prepareOffers mhn ap items) :
    priceAdmitted ap o.price = true ∧ 0 < o.offers ∧ o.hashName = mhn := by
  unfold prepareOffers at ho
  rw [List.mem_insertionSort, List.mem_filter, List.mem_filter] at ho
  obtain ⟨⟨-, hfirst⟩, hname⟩ := ho
  rw [Bool.and_eq_true, decide_eq_true_iff] at hfirst
  refine ⟨hfirst.1, hfirst.2, ?_⟩
  simpa using hname

/-- The output of `prepareOffers` is price-ascending. -/
theorem sorted_prepareOffers (mhn : String) (ap : Option Int) (items : List Offer) :
    (prepareOffers mhn ap items).Pairwise fun a b => a.price ≤ b.price := by
  haveI : IsTotal Offer fun a b : Offer => a.price ≤ b.price := ⟨fun _ _ => le_total _ _⟩
  haveI : IsTrans Offer fun a b : Offer => a.price ≤ b.price := ⟨fun _ _ _ => le_trans⟩
  exact List.sorted_insertionSort _ _

/-- C6: when `getItemOffers` succeeds for a supplied (non-zero) price
ceiling, every offer in the returned queue is priced at most the normalized
ceiling `config.preparePrice maxPrice`, has a strictly positive listing
count, and carries exactly the requested hash name; and the queue is sorted
ascending by price. -/
theorem C6_offers_filtered_sorted (cfg : CMarketConfig) (mhn : String) (m : Int)
    (response : SearchResponse) (offersOut : List Offer) (hm : m ≠ 0)
    (hok : getItemOffers cfg mhn (some m) response = .ok offersOut) :
    (∀ o ∈ offersOut, o.price ≤ cfg.preparePrice m ∧ 0 < o.offers ∧ o.hashName = mhn) ∧
    offersOut.Pairwise fun a b => a.price ≤ b.price := by
  unfold getItemOffers at hok
  split at hok
  · exact absurd hok (by simp)
  · split at hok
    · exact absurd hok (by simp)
    · rename_i ds
      split at hok
      · exact absurd hok (by simp)
      · dsimp only at hok
        split at hok
        · exact absurd hok (by simp)
        · rw [Except.ok.injEq] at hok
          subst hok
          have hap : allowedPrice cfg (some m) = some (cfg.preparePrice m) := by
            simp [allowedPrice, hm]
          constructor
          · intro o ho
            have := mem_prepareOffers mhn _ _ o ho
            rw [hap] at this
            simpa [priceAdmitted] using this
          · exact sorted_prepareOffers mhn _ _

/-- Search response fixture: two genuine candidates at prices 100 and 150,
plus a mismatched item the provider slipped in. -/
def respSearch : SearchResponse :=
  { success := true,
    data := some
      [{ hashName := "AK-47 | Redline (Field-Tested)", instanceId := "188530139",
         classId := "310776560", price := 150, offersField := some 3, count := 0 },
       { hashName := "AK-47 | Redline (Field-Tested)", instanceId := "188530139",
         classId := "310776560", price := 100, offersField := none, count := 2 },
       { hashName := "StatTrak item", instanceId := "1", classId := "2",
         price := 10, offersField := some 1, count := 0 }] }

/-- Witness for C6: with ceiling 120 only the price-100 genuine candidate
survives. -/
theorem C6_witness :
    (∀ o ∈ [{ hashName := "AK-47 | Redline (Field-Tested)", instanceId := "188530139",
              classId := "310776560", price := 100, offers := 2 : Offer }],
      o.price ≤ cfgPlain.preparePrice 120 ∧ 0 < o.offers ∧
        o.hashName = "AK-47 | Redline (Field-Tested)") ∧
    List.Pairwise (fun a b : Offer => a.price ≤ b.price)
      [{ hashName := "AK-47 | Redline (Field-Tested)", instanceId := "188530139",
         classId := "310776560", price := 100, offers := 2 : Offer }] :=
  C6_offers_filtered_sorted cfgPlain "AK-47 | Redline (Field-Tested)" 120 respSearch
    [{ hashName := "AK-47 | Redline (Field-Tested)", instanceId := "188530139",
       classId := "310776560", price := 100, offers := 2 }]
    (by decide) (by rfl)

/-- A left fold with `min` is bounded by its seed and by every list
element. -/
theorem foldl_min_le (xs : List Int) (a : Int) :
    xs.foldl min a ≤ a ∧ ∀ p ∈ xs, xs.foldl min a ≤ p := by
  induction xs generalizing a with
  | nil => simp
  | cons x xs ih =>
      have h := ih (min a x)
      refine ⟨le_trans h.1 (min_le_left a x), ?_⟩
      intro p hp
      rcases List.mem_cons.mp hp with rfl | hp
      · exact le_trans h.1 (min_le_right a p)
      · exact h.2 p hp

/-- A left fold with `min` is its seed or one of the list elements. -/
theorem foldl_min_mem : ∀ (xs : List Int) (a : Int),
    xs.foldl min a = a ∨ xs.foldl min a ∈ xs
  | [], _ => Or.inl rfl
  | x :: xs, a => by
      rcases foldl_min_mem xs (min a x) with h | h
      · rcases min_choice a x with hm | hm
        · exact Or.inl (by rw [List.foldl_cons, h, hm])
        · exact Or.inr (by rw [List.foldl_cons, h, hm]; exact List.mem_cons_self x xs)
      · exact Or.inr (List.mem_cons_of_mem x h)

/-- JavaScript `Math.min` over a non-empty list is the least element of the
list. -/
theorem jsMathMin_spec (l : List Int) (hl : l ≠ []) :
    jsMathMin l ∈ l ∧ ∀ p ∈ l, jsMathMin l ≤ p := by
  cases l with
  | nil => exact absurd rfl hl
  | cons x xs =>
      constructor
      · rcases foldl_min_mem xs x with h | h
        · show xs.foldl min x ∈ x :: xs
          rw [h]
          exact List.mem_cons_self x xs
        · exact List.mem_cons_of_mem x h
      · intro p hp
        rcases List.mem_cons.mp hp with rfl | hp
        · exact (foldl_min_le xs p).1
        · exact (foldl_min_le xs x).2 p hp

/-- C7: `getItemOffers` fails `RequestFailed` (source Market) on a
non-success lookup; fails `NotFound` (source Market) on a missing or empty
candidate list; and when the raw candidate set is non-empty but filtering
empties it, fails `TooHighPrices` (source Owner) carrying the minimum raw
price as the `lowestPrice` context. -/
theorem C7_catalog_errors (cfg : CMarketConfig) (mhn : String) (maxPrice : Option Int)
    (response : SearchResponse) :
    (response.success = false →
      getItemOffers cfg mhn maxPrice response =
        .error { message := "Can't get item variants on TM", type := .RequestFailed,
                 source := some .Market }) ∧
    (response.success = true → (response.data = none ∨ response.data = some []) →
      getItemOffers cfg mhn maxPrice response =
        .error { message := "Got empty list of item variants on TM", type := .NotFound,
                 source := some .Market }) ∧
    (∀ ds, response.success = true → response.data = some ds → ds ≠ [] →
      prepareOffers mhn (allowedPrice cfg maxPrice) (extractOffers ds) = [] →
      ∃ e, getItemOffers cfg mhn maxPrice response = .error e ∧
        e.type = .TooHighPrices ∧ e.source = some .Owner ∧
        ∃ mp, e.lowestPrice = some mp ∧
          mp ∈ (extractOffers ds).map (fun item => item.price) ∧
          ∀ p ∈ (extractOffers ds).map (fun item => item.price), mp ≤ p) := by
  refine ⟨?_, ?_, ?_⟩
  · intro hs
    unfold getItemOffers
    simp [hs]
  · rintro hs (hd | hd) <;> unfold getItemOffers <;> simp [hs, hd]
  · intro ds hs hd hne hempty
    unfold getItemOffers
    rw [hs, hd]
    simp only [Bool.not_true, Bool.false_eq_true, if_false]
    rw [if_neg hne, if_pos hempty]
    have hmaps : (extractOffers ds).map (fun item => item.price) ≠ [] := by
      simp [extractOffers, hne]
    have hspec := jsMathMin_spec _ hmaps
    exact ⟨_, rfl, rfl, rfl, _, rfl, hspec.1, hspec.2⟩

/-- Witness for C7 on a failed lookup. -/
theorem C7_witness :
    getItemOffers cfgPlain "AK-47 | Redline (Field-Tested)" none
        { success := false, data := none } =
      .error { message := "Can't get item variants on TM", type := .RequestFailed,
               source := some .Market } :=
  (C7_catalog_errors cfgPlain "AK-47 | Redline (Field-Tested)" none
    { success := false, data := none }).1 rfl

/-- The filter of a history response down to its buy events, as computed by
`getBoughtItems`. -/
def buyEventsOf (r : HistoryResponse) : List HistoryEvent :=
  r.data.filter fun event => event.event == EMarketEventType.BuyV2

/-- `getBoughtItems` on a successful history query with at least one buy
event returns exactly the buy events of the window. -/
theorem getBoughtItems_ok (cfg : CMarketConfig) (qh : Int → Int → HistoryResponse)
    (t margin : Int)
    (hs : (qh (alignDate cfg t - margin) (alignDate cfg t + margin)).success = true)
    (hne : buyEventsOf (qh (alignDate cfg t - margin) (alignDate cfg t + margin)) ≠ []) :
    getBoughtItems cfg qh t margin =
      .ok (buyEventsOf (qh (alignDate cfg t - margin) (alignDate cfg t + margin))) := by
  unfold getBoughtItems buyEventsOf at *
  dsimp only
  rw [hs, if_pos rfl, if_neg hne]

/-- `getItem` succeeds with the matching event when the window's buy events
contain it. -/
theorem getItem_found (cfg : CMarketConfig) (qh : Int → Int → HistoryResponse)
    (marketId t margin : Int) (ev : HistoryEvent)
    (hs : (qh (alignDate cfg t - margin) (alignDate cfg t + margin)).success = true)
    (hfound : extractItem marketId
        (buyEventsOf (qh (alignDate cfg t - margin) (alignDate cfg t + margin))) = some ev) :
    getItem cfg qh marketId t margin = .ok ev := by
  have hne : buyEventsOf (qh (alignDate cfg t - margin) (alignDate cfg t + margin)) ≠ [] := by
    intro h
    rw [h] at hfound
    simp [extractItem] at hfound
  unfold getItem
  rw [getBoughtItems_ok cfg qh t margin hs hne]
  dsimp only
  rw [hfound]

/-- `getItem` fails with a `NotFound` error when the matching event is
absent from the window's buy events (including the case of no buy events at
all). -/
theorem getItem_notFound (cfg : CMarketConfig) (qh : Int → Int → HistoryResponse)
    (marketId t margin : Int)
    (hs : (qh (alignDate cfg t - margin) (alignDate cfg t + margin)).success = true)
    (habs : extractItem marketId
        (buyEventsOf (qh (alignDate cfg t - margin) (alignDate cfg t + margin))) = none) :
    ∃ e, getItem cfg qh marketId t margin = .error e ∧ e.type = .NotFound := by
  by_cases hne : buyEventsOf (qh (alignDate cfg t - margin) (alignDate cfg t + margin)) = []
  · refine ⟨{ message := "Buy events not found", type := .NotFound }, ?_, rfl⟩
    unfold getItem getBoughtItems
    unfold buyEventsOf at hne
    dsimp only
    rw [hs, if_pos rfl, if_pos hne]
  · refine ⟨{ message := "Event for marketItem not found", type := .NotFound }, ?_, rfl⟩
    unfold getItem
    rw [getBoughtItems_ok cfg qh t margin hs hne]
    dsimp only
    rw [habs]

/-- C8: with a supplied approximate timestamp (and no timezone re-basing),
`getItemState` first consults history within `t ± 45s`; when the item's buy
event is absent there it consults history exactly once more within
`t ± 5min` — when the event is present in that wider window (with a known
stage) the call succeeds in the second phase, and when it is absent from
both windows the call fails with `NotFound` carrying the item id in the
`marketId` context. -/
theorem C8_two_phase_history (cfg : CMarketConfig) (qh : Int → Int → HistoryResponse)
    (knownStages : List Int) (marketId t : Int)
    (hcz : cfg.handleTimezone = false)
    (h1s : (qh (t - 45 * 1000) (t + 45 * 1000)).success = true)
    (h2s : (qh (t - 5 * 60 * 1000) (t + 5 * 60 * 1000)).success = true)
    (habs1 : extractItem marketId (buyEventsOf (qh (t - 45 * 1000) (t + 45 * 1000))) = none) :
    (∀ ev : HistoryEvent,
      extractItem marketId (buyEventsOf (qh (t - 5 * 60 * 1000) (t + 5 * 60 * 1000))) =
          some ev →
      ev.stage ∈ knownStages →
      getItemState cfg qh knownStages marketId t = .ok ev.stage) ∧
    (extractItem marketId (buyEventsOf (qh (t - 5 * 60 * 1000) (t + 5 * 60 * 1000))) = none →
      ∃ e, getItemState cfg qh knownStages marketId t = .error e ∧
        e.type = .NotFound ∧ e.marketId = some marketId) := by
  have halign : alignDate cfg t = t := by simp [alignDate, hcz]
  have h1s' : (qh (alignDate cfg t - 45 * 1000) (alignDate cfg t + 45 * 1000)).success = true := by
    rw [halign]; exact h1s
  have habs1' : extractItem marketId
      (buyEventsOf (qh (alignDate cfg t - 45 * 1000) (alignDate cfg t + 45 * 1000))) = none := by
    rw [halign]; exact habs1
  have h2s' : (qh (alignDate cfg t - 5 * 60 * 1000)
      (alignDate cfg t + 5 * 60 * 1000)).success = true := by
    rw [halign]; exact h2s
  obtain ⟨e1, he1, ht1⟩ := getItem_notFound cfg qh marketId t (45 * 1000) h1s' habs1'
  have hmk : makeRequests cfg qh marketId t = getItem cfg qh marketId t (5 * 60 * 1000) := by
    unfold makeRequests
    rw [he1]
    dsimp only
    rw [if_pos ht1]
  constructor
  · intro ev hfound hstage
    have hfound' : extractItem marketId
        (buyEventsOf (qh (alignDate cfg t - 5 * 60 * 1000)
          (alignDate cfg t + 5 * 60 * 1000))) = some ev := by
      rw [halign]; exact hfound
    have hok2 := getItem_found cfg qh marketId t (5 * 60 * 1000) ev h2s' hfound'
    have hcontains : knownStages.contains ev.stage = true := List.elem_iff.mpr hstage
    unfold getItemState
    rw [hmk, hok2]
    dsimp only
    rw [if_pos hcontains]
  · intro habs2
    have habs2' : extractItem marketId
        (buyEventsOf (qh (alignDate cfg t - 5 * 60 * 1000)
          (alignDate cfg t + 5 * 60 * 1000))) = none := by
      rw [halign]; exact habs2
    obtain ⟨e2, he2, ht2⟩ := getItem_notFound cfg qh marketId t (5 * 60 * 1000) h2s' habs2'
    refine ⟨{ e2 with marketId := some marketId }, ?_, ht2, rfl⟩
    unfold getItemState
    rw [hmk, he2]

/-- History oracle fixture: the buy event for item 5 appears only in
windows reaching back at least 100 seconds. -/
def qhWide : Int → Int → HistoryResponse := fun a _ =>
  if a ≤ -100000 then
    { success := true, data := [{ item_id := 5, stage := 1, event := .BuyV2 }] }
  else
    { success := true, data := [] }

/-- Witness for C8: the event is outside the 45 second window and inside
the 5 minute window, so the lookup succeeds on the second phase. -/
theorem C8_witness :
    getItemState cfgPlain qhWide [1, 2, 3, 5] 5 0 = .ok 1 :=
  (C8_two_phase_history cfgPlain qhWide [1, 2, 3, 5] 5 0 rfl rfl rfl rfl).1
    { item_id := 5, stage := 1, event := .BuyV2 } rfl (by simp)

/-- C9 counterexample: with the price-floor adjustment disabled, a
successful purchase of the single candidate priced 100 returns
`offerPrice` (the spec's `listedPrice` field) absent — `min_price` was
never written — and not the candidate's original listed price 100,
refuting `listedPrice = original listed price` as stated. -/
theorem C9_counterexample :
    buyCheapest cfgPlain none 0 [offerAt 100] respOkAlways =
      .ok { uiId := 0, classId := (offerAt 100).classId,
            instanceId := (offerAt 100).instanceId, price := 100, offerPrice := none } ∧
    (none : Option Int) ≠ some (offerAt 100).price := by
  exact ⟨by decide, by decide⟩

/-- C9 (amended): a successful purchase resolves with the candidate's
`classId` and `instanceId`, `price = applyDiscount basePrice` where
`basePrice` is the recorded `min_price` when present and non-zero (the
original listed price written by the price-floor adjustment step) and the
attempt price otherwise; `applyDiscount` is
`round(basePrice * (1 - buyDiscountRatio))` when discounts are enabled and
the identity otherwise; and `offerPrice` (the spec's `listedPrice`) equals
the recorded `min_price`, which is absent whenever the adjustment step did
not run. -/
theorem C9_success_result (cfg : CMarketConfig) (buyDiscount : ℚ) (inst : Offer)
    (id : Nat) :
    tryToBuy cfg buyDiscount inst (.resolved true id) =
      .ok { uiId := id, classId := inst.classId, instanceId := inst.instanceId,
            price := applyDiscount cfg buyDiscount (jsOr inst.minPrice inst.price),
            offerPrice := inst.minPrice } ∧
    (cfg.applyDiscounts = true →
      applyDiscount cfg buyDiscount (jsOr inst.minPrice inst.price) =
        round ((jsOr inst.minPrice inst.price : ℚ) * (1 - buyDiscount))) ∧
    (cfg.applyDiscounts = false →
      applyDiscount cfg buyDiscount (jsOr inst.minPrice inst.price) =
        jsOr inst.minPrice inst.price) ∧
    (∀ m : Int, inst.minPrice = some m → m ≠ 0 → jsOr inst.minPrice inst.price = m) ∧
    (inst.minPrice = none → jsOr inst.minPrice inst.price = inst.price) := by
  refine ⟨rfl, ?_, ?_, ?_, ?_⟩
  · intro h; simp [applyDiscount, h]
  · intro h; simp [applyDiscount, h]
  · intro m hm hm0; simp [jsOr, hm, hm0]
  · intro hm; simp [jsOr, hm]

/-- Witness for C9 (amended): a candidate whose `min_price` was recorded as
100 and whose attempt price is 104, bought successfully with discounts
disabled. -/
theorem C9_witness :
    tryToBuy cfgPlain 0 (adjustInstance cfgAdjust (offerAt 100) [offerAt 105])
        (.resolved true 9) =
      .ok { uiId := 9, classId := (offerAt 100).classId,
            instanceId := (offerAt 100).instanceId,
            price := applyDiscount cfgPlain 0
              (jsOr (adjustInstance cfgAdjust (offerAt 100) [offerAt 105]).minPrice
                (adjustInstance cfgAdjust (offerAt 100) [offerAt 105]).price),
            offerPrice := (adjustInstance cfgAdjust (offerAt 100) [offerAt 105]).minPrice } ∧
    jsOr (adjustInstance cfgAdjust (offerAt 100) [offerAt 105]).minPrice
        (adjustInstance cfgAdjust (offerAt 100) [offerAt 105]).price = 100 := by
  have h := C9_success_result cfgPlain 0
    (adjustInstance cfgAdjust (offerAt 100) [offerAt 105]) 9
  exact ⟨h.1, (h.2.2.2.1 100 (by decide) (by decide)).trans rfl⟩

/-- C10 counterexample: a provider rejection carrying no structured
response body makes the attempt handler raise a plain `TypeError` (from
dereferencing `error.response.body.error`), which is none of the three
promised outcomes — not a success, not a silent retry, and not a
`MiddlewareError`. -/
theorem C10_counterexample :
    tryToBuy cfgPlain 0 (offerAt 100) (.rejected none (some 500)) =
      .jsError "TypeError" ∧
    tryToBuy cfgPlain 0 (offerAt 100) (.resolved false 0) = .jsError "TypeError" := by
  exact ⟨rfl, rfl⟩

/-- Every classification of a structured rejection message is either the
silent-retry `null` or a thrown `MiddlewareError`. -/
theorem classifyMessage_shapes (raw : String) (uprice : Int) :
    classifyMessage raw uprice = .retryNull ∨
    ∃ e, classifyMessage raw uprice = .err e := by
  unfold classifyMessage
  by_cases h1 : raw = EMarketMessage.BadOfferPrice
  · rw [if_pos h1]; exact Or.inr ⟨_, rfl⟩
  rw [if_neg h1]
  by_cases h2 : raw = EMarketMessage.BuyOfferExpired ∨ raw = EMarketMessage.SomebodyBuying ∨
      raw = EMarketMessage.RequestErrorNoList ∨ raw = EMarketMessage.SteamOrBotProblems ∨
      raw = EMarketMessage.BotIsBanned ∨ raw = EMarketMessage.ServerError7
  · rw [if_pos h2]; exact Or.inl rfl
  rw [if_neg h2]
  by_cases h3 : raw = EMarketMessage.NeedToTake
  · rw [if_pos h3]; exact Or.inr ⟨_, rfl⟩
  rw [if_neg h3]
  by_cases h4 : raw = EMarketMessage.NeedMoney
  · rw [if_pos h4]; exact Or.inr ⟨_, rfl⟩
  rw [if_neg h4]
  by_cases h5 : raw = EMarketMessage.InvalidTradeLink
  · rw [if_pos h5]; exact Or.inr ⟨_, rfl⟩
  rw [if_neg h5]
  by_cases h6 : raw = EMarketMessage.SteamInventoryPrivate
  · rw [if_pos h6]; exact Or.inr ⟨_, rfl⟩
  rw [if_neg h6]
  by_cases h7 : raw = EMarketMessage.OfflineTradeProblem
  · rw [if_pos h7]; exact Or.inr ⟨_, rfl⟩
  rw [if_neg h7]
  by_cases h8 : raw = EMarketMessage.VacGameBan
  · rw [if_pos h8]; exact Or.inr ⟨_, rfl⟩
  rw [if_neg h8]
  by_cases h9 : raw = EMarketMessage.BuyCanceledTrades
  · rw [if_pos h9]; exact Or.inr ⟨_, rfl⟩
  rw [if_neg h9]
  by_cases h10 : raw = EMarketMessage.CanceledTrades
  · rw [if_pos h10]; exact Or.inr ⟨_, rfl⟩
  rw [if_neg h10]
  exact Or.inl rfl

/-- C10 (amended): for every remote-call outcome that is a successful
resolution or a rejection carrying a structured response body, the attempt
handler produces exactly one of the three outcomes — a successful result, a
silent retry, or a `MiddlewareError`; a resolution with `success` not true
and a rejection without a structured body instead raise a plain
`TypeError`. -/
theorem C10_attempt_outcomes (cfg : CMarketConfig) (buyDiscount : ℚ) (inst : Offer)
    (outcome : BuyCallOutcome)
    (h : (∃ id, outcome = .resolved true id) ∨
      ∃ raw sc, outcome = .rejected (some raw) sc) :
    (∃ r, tryToBuy cfg buyDiscount inst outcome = .ok r) ∨
    tryToBuy cfg buyDiscount inst outcome = .retryNull ∨
    ∃ e, tryToBuy cfg buyDiscount inst outcome = .err e := by
  rcases h with ⟨id, rfl⟩ | ⟨raw, sc, rfl⟩
  · exact Or.inl ⟨_, rfl⟩
  · rcases classifyMessage_shapes raw inst.price with h | ⟨e, h⟩
    · exact Or.inr (Or.inl h)
    · exact Or.inr (Or.inr ⟨e, h⟩)

/-- Witness for C10 (amended) at a structured `NeedToTake` rejection. -/
theorem C10_witness :
    (∃ r, tryToBuy cfgPlain 0 (offerAt 100)
        (.rejected (some EMarketMessage.NeedToTake) none) = .ok r) ∨
    tryToBuy cfgPlain 0 (offerAt 100)
        (.rejected (some EMarketMessage.NeedToTake) none) = .retryNull ∨
    ∃ e, tryToBuy cfgPlain 0 (offerAt 100)
        (.rejected (some EMarketMessage.NeedToTake) none) = .err e :=
  C10_attempt_outcomes cfgPlain 0 (offerAt 100)
    (.rejected (some EMarketMessage.NeedToTake) none)
    (Or.inr ⟨EMarketMessage.NeedToTake, none, rfl⟩)

end MarketCsgo
